import Mathlib

/-!
Shallow embedding of the core of the `aws-parameter-store-manager` repository:
the authentication configuration (`config.py`), the parameter-store client
wrapper (`aws_parameter_manager.py`) against an abstract remote client, and
the upload reconciliation loop shared by `cli_app.py` / `gui_app.py`.

Remote calls (boto3) are modelled as oracle functions supplied as arguments:
a call that raises a Python exception is modelled as an `Except` error value,
and the exception classes the source catches are modelled as explicit error
types. The Python source is translated clause by clause; each definition's
doc comment names the source function it embeds.
-/

namespace ParamStoreMgr

/-- The `AuthMethod` enum of `config.py` (members `ACCESS_KEY`, `PROFILE`,
`SSO`, `ROLE`, `ENVIRONMENT`, `DEFAULT`). -/
inductive AuthMethod
  | ACCESS_KEY
  | PROFILE
  | SSO
  | ROLE
  | ENVIRONMENT
  | DEFAULT
deriving DecidableEq, Repr

/-- The `AWSConfig` object of `config.py`: a flat record whose optional
credential fields are gated by `auth_method`. Python `None` is `Option.none`;
the cached boto3 session `_session` is abstracted over a session type `σ`. -/
structure AWSConfig (σ : Type) where
  region : String
  kms_key_alias : String
  auth_method : AuthMethod
  access_key_id : Option String
  secret_access_key : Option String
  session_token : Option String
  profile_name : Option String
  sso_start_url : Option String
  sso_region : Option String
  sso_account_id : Option String
  sso_role_name : Option String
  role_arn : Option String
  role_session_name : Option String
  external_id : Option String
  mfa_serial : Option String
  mfa_token : Option String
  cached_session : Option σ

/-- `AWSConfig.__init__`: the defaults set in the constructor. -/
def AWSConfig.init (σ : Type) : AWSConfig σ :=
  { region := "us-east-1"
    kms_key_alias := "alias/aws/ssm"
    auth_method := .DEFAULT
    access_key_id := none
    secret_access_key := none
    session_token := none
    profile_name := none
    sso_start_url := none
    sso_region := none
    sso_account_id := none
    sso_role_name := none
    role_arn := none
    role_session_name := none
    external_id := none
    mfa_serial := none
    mfa_token := none
    cached_session := none }

/-- `AWSConfig.set_access_key_auth` of `config.py`. -/
def AWSConfig.set_access_key_auth (c : AWSConfig σ) (access_key_id secret_access_key : String)
    (session_token : Option String) (region : String) : AWSConfig σ :=
  { c with
    auth_method := .ACCESS_KEY
    access_key_id := some access_key_id
    secret_access_key := some secret_access_key
    session_token := session_token
    region := region
    cached_session := none }

/-- `AWSConfig.set_profile_auth` of `config.py`. -/
def AWSConfig.set_profile_auth (c : AWSConfig σ) (profile_name region : String) : AWSConfig σ :=
  { c with
    auth_method := .PROFILE
    profile_name := some profile_name
    region := region
    cached_session := none }

/-- `AWSConfig.set_sso_auth` of `config.py`. -/
def AWSConfig.set_sso_auth (c : AWSConfig σ)
    (sso_start_url sso_region sso_account_id sso_role_name region : String) : AWSConfig σ :=
  { c with
    auth_method := .SSO
    sso_start_url := some sso_start_url
    sso_region := some sso_region
    sso_account_id := some sso_account_id
    sso_role_name := some sso_role_name
    region := region
    cached_session := none }

/-- `AWSConfig.set_role_auth` of `config.py`; `pid` stands for `os.getpid()`
in the default session name. -/
def AWSConfig.set_role_auth (c : AWSConfig σ) (role_arn : String)
    (role_session_name external_id mfa_serial mfa_token : Option String)
    (pid : Nat) (region : String) : AWSConfig σ :=
  { c with
    auth_method := .ROLE
    role_arn := some role_arn
    role_session_name :=
      some (role_session_name.getD ("aws-parameter-store-" ++ toString pid))
    external_id := external_id
    mfa_serial := mfa_serial
    mfa_token := mfa_token
    region := region
    cached_session := none }

/-- `AWSConfig.set_environment_auth` of `config.py`. -/
def AWSConfig.set_environment_auth (c : AWSConfig σ) (region : String) : AWSConfig σ :=
  { c with
    auth_method := .ENVIRONMENT
    region := region
    cached_session := none }

/-- `AWSConfig.set_default_auth` of `config.py`. -/
def AWSConfig.set_default_auth (c : AWSConfig σ) (region : String) : AWSConfig σ :=
  { c with
    auth_method := .DEFAULT
    region := region
    cached_session := none }

/-- Python truthiness of an optional string: `None` and `""` are falsy. -/
def strTruthy : Option String → Bool
  | none => false
  | some s => !s.isEmpty

/-- `AWSConfig.is_configured` of `config.py`: the `if`/`elif` chain over
`auth_method` (the final `return False` is unreachable since the enum is
covered). `bool(a and b)` on optional strings is truthiness of both. -/
def AWSConfig.is_configured (c : AWSConfig σ) : Bool :=
  match c.auth_method with
  | .ACCESS_KEY => strTruthy c.access_key_id && strTruthy c.secret_access_key
  | .PROFILE => strTruthy c.profile_name
  | .SSO =>
    strTruthy c.sso_start_url && strTruthy c.sso_region &&
      strTruthy c.sso_account_id && strTruthy c.sso_role_name
  | .ROLE => strTruthy c.role_arn
  | .ENVIRONMENT => true
  | .DEFAULT => true

/-- `AWSConfig.get_session` of `config.py`. The dispatch over `auth_method`
to the six `_create_*_session` helpers (each a boto3 call) is modelled by the
oracle `create`; an exception raised during creation is an `Except.error`.
The source memoizes a freshly created session, and on any failure sets
`self._session = None` and re-raises. Returns the updated config together
with the session-or-error outcome. -/
def AWSConfig.get_session (create : AWSConfig σ → Except ε σ) (c : AWSConfig σ) :
    AWSConfig σ × Except ε σ :=
  match c.cached_session with
  | some s => (c, .ok s)
  | none =>
    match create c with
    | .ok s => ({ c with cached_session := some s }, .ok s)
    | .error e => ({ c with cached_session := none }, .error e)

/-- A `botocore` `ClientError`: the code under `e.response["Error"]["Code"]`
is the only part the source inspects. -/
structure ClientErr where
  code : String
deriving DecidableEq, Repr

/-- Response of `ssm_client.get_parameter` (the fields the source reads). -/
structure GetResp where
  Name : String
  Value : String
  «Type» : String
  Version : Nat
deriving DecidableEq, Repr

/-- One item of a `describe_parameters` response (the fields the source
reads; `Option.none` models a key absent from the response dict). -/
structure MetaResp where
  Tier : Option String
  KeyId : Option String
  LastModifiedDate : Option String
deriving DecidableEq, Repr

/-- The dict built and returned by `AWSParameterManager.parameter_exists`. -/
structure ExistingParam where
  Name : String
  Value : String
  «Type» : String
  Tier : String
  KeyId : String
  LastModifiedDate : Option String
  Version : Nat
deriving DecidableEq, Repr

/-- A CSV-sourced parameter record as produced by `read_csv_parameters`
(keys `key`, `value`, `type`, `tier`, `kms_key`). -/
structure CsvParam where
  key : String
  value : String
  type : String
  tier : String
  kms_key : String
deriving DecidableEq, Repr

/-- The keyword arguments passed to `ssm_client.put_parameter`. -/
structure PutReq where
  Name : String
  Value : String
  «Type» : String
  Tier : String
  Overwrite : Bool
  KeyId : Option String
deriving DecidableEq, Repr

/-- The abstract SSM client used by `parameter_exists` and
`create_or_update_parameter`: each field is one boto3 call, raising a
`ClientError` as `Except.error`. `get_parameter` takes the name and the
`WithDecryption` flag; `describe_parameters` takes the name filter value. -/
structure SSMClient where
  get_parameter : String → Bool → Except ClientErr GetResp
  describe_parameters : String → Except ClientErr (List MetaResp)
  put_parameter : PutReq → Except ClientErr Unit

/-- `AWSParameterManager.parameter_exists` of `aws_parameter_manager.py`.
Both remote calls sit inside one `try`: a `ClientError` with code
`"ParameterNotFound"` from either yields `(False, None)`, any other
`ClientError` is re-raised; a successful point read followed by an empty
`describe_parameters` item list falls through to the final
`return False, None`. -/
def parameter_exists (client : SSMClient) (parameter_name : String) :
    Except ClientErr (Bool × Option ExistingParam) :=
  match client.get_parameter parameter_name true with
  | .error e =>
    if e.code = "ParameterNotFound" then .ok (false, none) else .error e
  | .ok response =>
    match client.describe_parameters parameter_name with
    | .error e =>
      if e.code = "ParameterNotFound" then .ok (false, none) else .error e
    | .ok metas =>
      match metas with
      | [] => .ok (false, none)
      | param_details :: _ =>
        .ok (true, some
          { Name := response.Name
            Value := response.Value
            «Type» := response.«Type»
            Tier := param_details.Tier.getD "Standard"
            KeyId := param_details.KeyId.getD ""
            LastModifiedDate := param_details.LastModifiedDate
            Version := response.Version })

/-- The `put_params` dict built in `create_or_update_parameter`: a `KeyId`
is attached only for a `SecureString` with a truthy `kms_key`. -/
def build_put_params (param : CsvParam) (overwrite : Bool) : PutReq :=
  { Name := param.key
    Value := param.value
    «Type» := param.type
    Tier := param.tier
    Overwrite := overwrite
    KeyId :=
      if param.type = "SecureString" && !param.kms_key.isEmpty
      then some param.kms_key else none }

/-- `AWSParameterManager.create_or_update_parameter` of
`aws_parameter_manager.py`: a successful `put_parameter` returns `True`;
any `ClientError` is caught, logged, and collapsed to `False` regardless of
its error code. -/
def create_or_update_parameter (client : SSMClient) (param : CsvParam)
    (overwrite : Bool) : Bool :=
  match client.put_parameter (build_put_params param overwrite) with
  | .ok _ => true
  | .error _ => false

/-- The exception classes caught by `AWSParameterManager.connect`:
`(ClientError, NoCredentialsError, ValueError, ProfileNotFound)`. Every
failure path reachable inside its `try` raises one of these. -/
inductive PyError
  | clientError (code : String)
  | noCredentialsError
  | profileNotFound
  | valueError (msg : String)
deriving DecidableEq, Repr

/-- `AWSParameterManager.connect` of `aws_parameter_manager.py`:
checks `aws_config.is_configured()` (raising `ValueError` if not, caught by
the same `try`), obtains a session via `aws_config.get_session()`, then
probes the connection with `describe_parameters(MaxResults=1)`. Any caught
exception yields `False`. The second component records the `MaxResults`
argument of each probe call actually issued. -/
def connect (cfg : AWSConfig σ) (create : AWSConfig σ → Except PyError σ)
    (describe_probe : σ → Nat → Except PyError Unit) : Bool × List Nat :=
  if cfg.is_configured = false then (false, [])
  else
    match (cfg.get_session create).2 with
    | .error _ => (false, [])
    | .ok session =>
      match describe_probe session 1 with
      | .ok _ => (true, [1])
      | .error _ => (false, [1])

/-- One item of a paginated `describe_parameters` page as consumed by
`get_all_parameters` (the fields the source reads). -/
structure DescMeta where
  Name : String
  «Type» : String
  Tier : Option String
  KeyId : Option String
  LastModifiedDate : Option String
  Description : Option String
deriving DecidableEq, Repr

/-- One item of a `get_parameters` (batch value fetch) response. -/
structure PVal where
  Name : String
  Value : String
  Version : String
deriving DecidableEq, Repr

/-- One combined record appended to `all_parameters` by
`get_all_parameters`. -/
structure OutParam where
  Name : String
  Value : String
  «Type» : String
  Tier : String
  KeyId : String
  LastModifiedDate : Option String
  Version : String
  Description : String
deriving DecidableEq, Repr

/-- The abstract client used by `get_all_parameters`. `pages` is the
successive `describe_parameters(MaxResults=50, NextToken=...)` responses
(each at most 50 items, a `NextToken` being returned while further pages
remain); `get_parameters` is the batch value fetch, taking the names and
the `WithDecryption` flag and raising a `ClientError` as `Except.error`. -/
structure ListClient where
  pages : List (List DescMeta)
  get_parameters : List String → Bool → Except ClientErr (List PVal)

/-- The `values_lookup` dict of `get_all_parameters`:
`{p["Name"]: p for p in values_response["Parameters"]}`. -/
def values_lookup (vals : List PVal) (name : String) : Option PVal :=
  vals.find? (fun p => p.Name = name)

/-- The per-batch combine step of `get_all_parameters` when the batch value
fetch succeeded: metadata merged with values, a name missing from the value
response falling back to `"N/A"`. -/
def combine_batch (vals : List PVal) (batch : List DescMeta) : List OutParam :=
  batch.map fun param_meta =>
    let param_value := values_lookup vals param_meta.Name
    { Name := param_meta.Name
      Value := (param_value.map PVal.Value).getD "N/A"
      «Type» := param_meta.«Type»
      Tier := param_meta.Tier.getD "Standard"
      KeyId := param_meta.KeyId.getD ""
      LastModifiedDate := param_meta.LastModifiedDate
      Version := (param_value.map PVal.Version).getD "N/A"
      Description := param_meta.Description.getD "" }

/-- The per-batch fallback of `get_all_parameters` when the batch value
fetch raised a `ClientError`: the records are kept, flagged with the
sentinel value `"Error retrieving value"`. -/
def error_batch (batch : List DescMeta) : List OutParam :=
  batch.map fun param_meta =>
    { Name := param_meta.Name
      Value := "Error retrieving value"
      «Type» := param_meta.«Type»
      Tier := param_meta.Tier.getD "Standard"
      KeyId := param_meta.KeyId.getD ""
      LastModifiedDate := param_meta.LastModifiedDate
      Version := "N/A"
      Description := param_meta.Description.getD "" }

/-- Structural worker for `batches_of_10`: each step takes the next (at
most) 10 elements and consumes at least one, so `l.length` fuel always
suffices and the `(0, _ :: _)` fallback is never reached. Fuel recursion is
used so the definition reduces inside the kernel. -/
def batches_of_10_go : Nat → List α → List (List α)
  | _, [] => []
  | 0, _ :: _ => []
  | fuel + 1, x :: xs => ((x :: xs).take 10) :: batches_of_10_go fuel ((x :: xs).drop 10)

/-- The slicing `for i in range(0, len(names), 10)` of `get_all_parameters`:
successive sublists of at most 10 elements. -/
def batches_of_10 (l : List α) : List (List α) :=
  batches_of_10_go l.length l

/-- The inner batch loop of `get_all_parameters` over one describe page:
returns the combined records and, as a trace, the `Names` argument of each
`get_parameters` call issued. The source slices names and metadata with the
same indices `[i : i + 10]`, so chunking the metadata and mapping `Name`
per chunk is the same slicing. -/
def process_page (client : ListClient) (decrypt : Bool) (page : List DescMeta) :
    List OutParam × List (List String) :=
  let parameter_names := page.map DescMeta.Name
  if parameter_names.isEmpty then ([], [])
  else
    let chunks := batches_of_10 page
    let results := chunks.map fun batch =>
      let batch_names := batch.map DescMeta.Name
      match client.get_parameters batch_names decrypt with
      | .ok vals => (combine_batch vals batch, batch_names)
      | .error _ => (error_batch batch, batch_names)
    ((results.map Prod.fst).flatten, results.map Prod.snd)

/-- `AWSParameterManager.get_all_parameters` of `aws_parameter_manager.py`:
the `while` loop over describe pages with the inner batch loop. Takes the
manager's previous `current_parameters` cache and returns
`(all_parameters, new current_parameters cache, MaxResults argument of each
describe call, batch-call trace)`. Each loop iteration builds
`describe_params =` a dict with `MaxResults` fixed at `50`, so the describe
trace records one `50` per page; the new cache is rebuilt from the results
alone (`{param["Name"]: param for param in all_parameters}`), the previous
cache never being consulted. Describe-page failures (which in the source
abort the scan via the outer `except` while keeping records collected so
far) are not modelled: `pages` always succeeds. -/
def get_all_parameters (client : ListClient) (decrypt : Bool)
    (current_parameters : List (String × OutParam)) :
    List OutParam × List (String × OutParam) × List Nat × List (List String) :=
  let results := client.pages.map (process_page client decrypt)
  let all_parameters := (results.map Prod.fst).flatten
  (all_parameters,
   all_parameters.map (fun param => (param.Name, param)),
   client.pages.map (fun _ => 50),
   (results.map Prod.snd).flatten)

/-- A desired-state record as seen by the upload loop (the loop reads only
`param["key"]` and `param["value"]` for its control flow). -/
structure UParam where
  key : String
  value : String
deriving DecidableEq, Repr

/-- The three-way answer of the conflict prompt: `y` / `askyesnocancel` Yes
is `replace`, `q` / Cancel is `abort`, anything else / No is `skip`. -/
inductive Decision
  | replace
  | skip
  | abort
deriving DecidableEq, Repr

/-- One observable remote interaction of the upload loop: an existence
check (`parameter_exists`), a user prompt, or a write
(`create_or_update_parameter` with its `overwrite` argument). -/
inductive StoreEvent
  | check_exists (name : String)
  | ask_user (name : String)
  | put (name : String) (overwrite : Bool)
deriving DecidableEq, Repr

/-- Update or append one key in an association list, as a remote write
does. -/
def updateAssoc (l : List (String × String)) (k v : String) :
    List (String × String) :=
  match l with
  | [] => [(k, v)]
  | (k', v') :: t => if k' = k then (k, v) :: t else (k', v') :: updateAssoc t k v

/-- The remote store as the upload loop observes it: a name-to-value map
(existence checks are lookups) plus an oracle saying which writes fail with
a `ClientError` (making `create_or_update_parameter` return `False`). -/
structure Store where
  params : List (String × String)
  putFails : String → Bool

/-- One write against the remote store: on failure the store is unchanged
and `False` is reported, mirroring `create_or_update_parameter`. -/
def Store.put (store : Store) (k v : String) : Store × Bool :=
  if store.putFails k then (store, false)
  else ({ store with params := updateAssoc store.params k v }, true)

/-- The counters printed in `Upload completed: .. uploaded, .. skipped`,
plus whether the loop was left through the user's cancel (`break`). -/
structure UploadResult where
  uploaded : Nat
  skipped : Nat
  aborted : Bool
deriving DecidableEq, Repr

/-- The body of the upload loop of `cli_app.upload_command` (identical in
control flow to the loop in `gui_app.upload`): per record, check existence;
if it exists and the overwrite flag is off, ask the user (Cancel breaks out
of the loop, No skips, Yes falls through); then write with
`overwrite=True`, counting only successful writes. `uploaded`/`skipped`
accumulate like the source's counters; the third component is the trace of
remote interactions, in order. -/
def uploadLoopAux (overwrite : Bool) (decide_cb : UParam → String → Decision) :
    Store → List UParam → Nat → Nat → UploadResult × Store × List StoreEvent
  | store, [], uploaded, skipped => (⟨uploaded, skipped, false⟩, store, [])
  | store, param :: rest, uploaded, skipped =>
    match store.params.lookup param.key with
    | some existing_value =>
      if overwrite then
        let wr := store.put param.key param.value
        let r := uploadLoopAux overwrite decide_cb wr.1 rest
          (uploaded + (if wr.2 then 1 else 0)) skipped
        (r.1, r.2.1, .check_exists param.key :: .put param.key true :: r.2.2)
      else
        match decide_cb param existing_value with
        | .abort =>
          (⟨uploaded, skipped, true⟩, store,
           [.check_exists param.key, .ask_user param.key])
        | .skip =>
          let r := uploadLoopAux overwrite decide_cb store rest uploaded (skipped + 1)
          (r.1, r.2.1, .check_exists param.key :: .ask_user param.key :: r.2.2)
        | .replace =>
          let wr := store.put param.key param.value
          let r := uploadLoopAux overwrite decide_cb wr.1 rest
            (uploaded + (if wr.2 then 1 else 0)) skipped
          (r.1, r.2.1,
           .check_exists param.key :: .ask_user param.key ::
             .put param.key true :: r.2.2)
    | none =>
      let wr := store.put param.key param.value
      let r := uploadLoopAux overwrite decide_cb wr.1 rest
        (uploaded + (if wr.2 then 1 else 0)) skipped
      (r.1, r.2.1, .check_exists param.key :: .put param.key true :: r.2.2)

/-- `cli_app.upload_command`'s reconciliation over the parsed records:
the loop started with both counters at `0`. -/
def upload_command (store : Store) (parameters : List UParam) (overwrite : Bool)
    (decide_cb : UParam → String → Decision) :
    UploadResult × Store × List StoreEvent :=
  uploadLoopAux overwrite decide_cb store parameters 0 0

/-! Theorems. -/

/-- The non-emptiness requirement on an optional credential field, as the
spec words it. -/
def spec_nonempty (o : Option String) : Prop := ∃ s, o = some s ∧ s ≠ ""

/-- Modelled from the spec's words (for comparison with `is_configured`):
the fields required by the active method — AccessKey needs id and secret,
Profile the profile name, SSO all four SSO fields, AssumeRole the role ARN,
Environment and DefaultChain nothing. -/
def spec_required_fields_nonempty (c : AWSConfig σ) : Prop :=
  match c.auth_method with
  | .ACCESS_KEY => spec_nonempty c.access_key_id ∧ spec_nonempty c.secret_access_key
  | .PROFILE => spec_nonempty c.profile_name
  | .SSO =>
    spec_nonempty c.sso_start_url ∧ spec_nonempty c.sso_region ∧
      spec_nonempty c.sso_account_id ∧ spec_nonempty c.sso_role_name
  | .ROLE => spec_nonempty c.role_arn
  | .ENVIRONMENT => True
  | .DEFAULT => True

lemma strTruthy_iff (o : Option String) : strTruthy o = true ↔ spec_nonempty o := by
  cases o with
  | none => simp [strTruthy, spec_nonempty]
  | some s => simp [strTruthy, spec_nonempty, Bool.eq_false_iff, String.isEmpty_iff]

/-- C5: for every configuration state, `is_configured()` returns true iff
the fields required by the active method are non-empty: AccessKey requires
id and secret; Profile the profile name; SSO all four SSO fields;
AssumeRole the role ARN; Environment and DefaultChain are always considered
configured. -/
theorem is_configured_iff_required_fields (σ : Type) (c : AWSConfig σ) :
    c.is_configured = true ↔ spec_required_fields_nonempty c := by
  cases h : c.auth_method <;>
    simp [AWSConfig.is_configured, spec_required_fields_nonempty, h, strTruthy_iff,
      and_assoc]

/-- C4: every setter that changes the authentication method or its
credential fields resets the cached session to empty; a `get_session` call
on a config without a cached session derives its outcome from the creation
dispatch rather than any previous handle; on successful creation the handle
is memoized and returned, and on failed creation the memoized handle is
cleared and the error surfaced. -/
theorem setters_invalidate_session_and_get_session_rederives
    (σ ε : Type) (create : AWSConfig σ → Except ε σ) (c : AWSConfig σ)
    (ak sk r pn su sr sa srn ra : String) (tok : Option String) (pid : Nat) :
    ((c.set_access_key_auth ak sk tok r).cached_session = none ∧
     (c.set_profile_auth pn r).cached_session = none ∧
     (c.set_sso_auth su sr sa srn r).cached_session = none ∧
     (c.set_role_auth ra none none none none pid r).cached_session = none ∧
     (c.set_environment_auth r).cached_session = none ∧
     (c.set_default_auth r).cached_session = none) ∧
    (∀ c' : AWSConfig σ, c'.cached_session = none →
      (c'.get_session create).2 = create c') ∧
    (∀ (c' : AWSConfig σ) (s : σ), c'.cached_session = none → create c' = .ok s →
      (c'.get_session create).1.cached_session = some s ∧
        (c'.get_session create).2 = .ok s) ∧
    (∀ (c' : AWSConfig σ) (e : ε), c'.cached_session = none → create c' = .error e →
      (c'.get_session create).1.cached_session = none ∧
        (c'.get_session create).2 = .error e) := by
  refine ⟨⟨rfl, rfl, rfl, rfl, rfl, rfl⟩, ?_, ?_, ?_⟩
  · intro c' h
    cases hc : create c' <;> simp [AWSConfig.get_session, h, hc]
  · intro c' s h hs
    simp [AWSConfig.get_session, h, hs]
  · intro c' e h he
    simp [AWSConfig.get_session, h, he]

/-- Witness for C4 at concrete inputs: a config holding a stale cached
session loses it through `set_profile_auth`, and a failing creation both
surfaces the error and leaves no memoized handle. -/
theorem setters_invalidate_session_witness :
    (({ AWSConfig.init Unit with
        cached_session := some () }).set_profile_auth "team" "us-east-1").cached_session
      = none ∧
    ((({ AWSConfig.init Unit with
        cached_session := some () }).set_profile_auth "team" "us-east-1").get_session
      (fun _ => (.error "ProfileNotFound" : Except String Unit))).1.cached_session = none ∧
    ((({ AWSConfig.init Unit with
        cached_session := some () }).set_profile_auth "team" "us-east-1").get_session
      (fun _ => (.error "ProfileNotFound" : Except String Unit))).2 =
        .error "ProfileNotFound" := by
  have h := setters_invalidate_session_and_get_session_rederives Unit String
    (fun _ => (.error "ProfileNotFound" : Except String Unit))
    ({ AWSConfig.init Unit with cached_session := some () })
    "ak" "sk" "us-east-1" "team" "su" "sr" "sa" "srn" "ra" none 7
  have hfail := h.2.2.2
    (({ AWSConfig.init Unit with
        cached_session := some () }).set_profile_auth "team" "us-east-1")
    "ProfileNotFound" rfl rfl
  exact ⟨h.1.2.1, hfail.1, hfail.2⟩

/-- A store behaviour on which the point read succeeds while the follow-up
metadata lookup returns an empty item list. -/
def ghost_client : SSMClient :=
  { get_parameter := fun _ _ =>
      .ok { Name := "ghost", Value := "v", «Type» := "String", Version := 1 }
    describe_parameters := fun _ => .ok []
    put_parameter := fun _ => .ok () }

/-- Counterexample to C6: `parameter_exists` also returns `(False, None)`
when neither remote call reported any error at all — the point read
succeeds and the metadata lookup succeeds with an empty item list — so
`(false, nil)` is not returned exactly when the store reports the
distinguished not-found code. -/
theorem parameter_exists_false_without_notfound :
    ghost_client.get_parameter "ghost" true =
      .ok { Name := "ghost", Value := "v", «Type» := "String", Version := 1 } ∧
    ghost_client.describe_parameters "ghost" = .ok [] ∧
    parameter_exists ghost_client "ghost" = .ok (false, none) :=
  ⟨rfl, rfl, rfl⟩

/-- C6 (amended): `parameter_exists` returns `(False, None)` without
raising whenever either remote call fails with the distinguished
`"ParameterNotFound"` code, re-raises every other remote failure, and in
addition returns `(False, None)` when both calls succeed but the metadata
lookup yields an empty item list. -/
theorem parameter_exists_notfound_and_error_propagation
    (client : SSMClient) (name : String) :
    (∀ e : ClientErr, client.get_parameter name true = .error e →
      (e.code = "ParameterNotFound" →
        parameter_exists client name = .ok (false, none)) ∧
      (e.code ≠ "ParameterNotFound" →
        parameter_exists client name = .error e)) ∧
    (∀ (resp : GetResp) (e : ClientErr),
      client.get_parameter name true = .ok resp →
      client.describe_parameters name = .error e →
      (e.code = "ParameterNotFound" →
        parameter_exists client name = .ok (false, none)) ∧
      (e.code ≠ "ParameterNotFound" →
        parameter_exists client name = .error e)) ∧
    (∀ resp : GetResp, client.get_parameter name true = .ok resp →
      client.describe_parameters name = .ok [] →
      parameter_exists client name = .ok (false, none)) := by
  refine ⟨?_, ?_, ?_⟩
  · intro e he
    exact ⟨fun hc => by simp [parameter_exists, he, hc],
           fun hc => by simp [parameter_exists, he, hc]⟩
  · intro resp e hg hd
    exact ⟨fun hc => by simp [parameter_exists, hg, hd, hc],
           fun hc => by simp [parameter_exists, hg, hd, hc]⟩
  · intro resp hg hd
    simp [parameter_exists, hg, hd]

/-- A store behaviour reporting the distinguished not-found code on the
point read. -/
def notfound_client : SSMClient :=
  { get_parameter := fun _ _ => .error { code := "ParameterNotFound" }
    describe_parameters := fun _ => .ok []
    put_parameter := fun _ => .ok () }

/-- Witness for the amended C6: on a store reporting `"ParameterNotFound"`
for the name, the existence check answers `(False, None)` without
raising. -/
theorem parameter_exists_notfound_witness :
    parameter_exists notfound_client "/app/missing" = .ok (false, none) :=
  ((parameter_exists_notfound_and_error_propagation notfound_client
      "/app/missing").1 { code := "ParameterNotFound" } rfl).1 rfl

/-- C10: whenever the point read (with decryption) succeeds but the
follow-up metadata lookup returns an empty item list, `parameter_exists`
reports the parameter absent: `(False, None)`. -/
theorem parameter_exists_requires_metadata (client : SSMClient)
    (name : String) (resp : GetResp)
    (hg : client.get_parameter name true = .ok resp)
    (hd : client.describe_parameters name = .ok []) :
    parameter_exists client name = .ok (false, none) := by
  simp [parameter_exists, hg, hd]

/-- Witness for C10 at a concrete store behaviour. -/
theorem parameter_exists_requires_metadata_witness :
    parameter_exists ghost_client "ghost" = .ok (false, none) :=
  parameter_exists_requires_metadata ghost_client "ghost"
    { Name := "ghost", Value := "v", «Type» := "String", Version := 1 } rfl rfl

/-- A store behaviour whose write rejects with the already-exists
precondition code. -/
def already_exists_client : SSMClient :=
  { get_parameter := fun n _ =>
      .ok { Name := n, Value := "old", «Type» := "String", Version := 1 }
    describe_parameters := fun _ =>
      .ok [{ Tier := some "Standard", KeyId := none, LastModifiedDate := none }]
    put_parameter := fun _ => .error { code := "ParameterAlreadyExists" } }

/-- The same store behaviour but failing writes with an unrelated error. -/
def other_failure_client : SSMClient :=
  { already_exists_client with
    put_parameter := fun _ => .error { code := "AccessDeniedException" } }

/-- A plain CSV record used in the write counterexamples. -/
def sample_csv_param : CsvParam :=
  { key := "/app/x", value := "v", type := "String", tier := "Standard", kms_key := "" }

/-- Counterexample to C7: a put with `overwrite=False` rejected because the
key already exists produces exactly the same caller-visible outcome
(`False`) as a put rejected by an unrelated failure — the wrapper collapses
every `ClientError`, so the caller cannot distinguish precondition failure
from any other write failure. -/
theorem put_precondition_failure_indistinguishable :
    create_or_update_parameter already_exists_client sample_csv_param false = false ∧
    create_or_update_parameter other_failure_client sample_csv_param false = false ∧
    create_or_update_parameter already_exists_client sample_csv_param false =
      create_or_update_parameter other_failure_client sample_csv_param false :=
  ⟨rfl, rfl, rfl⟩

/-- C7 (amended): a put with `overwrite=false` against an existing key
fails — the remote rejects it and the wrapper returns `False` — but not
distinguishably: `create_or_update_parameter` returns the same `False` for
every `ClientError` whatever its code, and `True` only on success, so the
already-exists code is visible only below the wrapper. -/
theorem put_failure_collapses_to_false (client : SSMClient)
    (param : CsvParam) (overwrite : Bool) :
    (∀ e : ClientErr,
      client.put_parameter (build_put_params param overwrite) = .error e →
      create_or_update_parameter client param overwrite = false) ∧
    (client.put_parameter (build_put_params param overwrite) = .ok () →
      create_or_update_parameter client param overwrite = true) := by
  constructor
  · intro e he
    simp [create_or_update_parameter, he]
  · intro hk
    simp [create_or_update_parameter, hk]

/-- Witness for the amended C7: the already-exists rejection surfaces as
`False`. -/
theorem put_failure_collapses_to_false_witness :
    create_or_update_parameter already_exists_client sample_csv_param false = false :=
  (put_failure_collapses_to_false already_exists_client sample_csv_param false).1
    { code := "ParameterAlreadyExists" } rfl

/-- C9: `connect` probes the store with a single read-only
`describe_parameters(MaxResults=1)` call once a session exists, never
issues more than that one probe, and returns `False` rather than raising on
a configuration failure, a session-creation failure, or a probe failure
(the `try` catches exactly the `ClientError`, `NoCredentialsError`,
`ValueError` and `ProfileNotFound` classes that those paths raise, which
`PyError` models); it returns `True` when the probe succeeds. -/
theorem connect_probe_and_failure_policy (σ : Type) (cfg : AWSConfig σ)
    (create : AWSConfig σ → Except PyError σ)
    (probe : σ → Nat → Except PyError Unit) :
    ((connect cfg create probe).2 = [] ∨ (connect cfg create probe).2 = [1]) ∧
    (cfg.is_configured = false → connect cfg create probe = (false, [])) ∧
    (∀ e : PyError, cfg.is_configured = true →
      (cfg.get_session create).2 = .error e →
      connect cfg create probe = (false, [])) ∧
    (∀ (s : σ) (e : PyError), cfg.is_configured = true →
      (cfg.get_session create).2 = .ok s → probe s 1 = .error e →
      connect cfg create probe = (false, [1])) ∧
    (∀ s : σ, cfg.is_configured = true →
      (cfg.get_session create).2 = .ok s → probe s 1 = .ok () →
      connect cfg create probe = (true, [1])) := by
  refine ⟨?_, ?_, ?_, ?_, ?_⟩
  · by_cases hc : cfg.is_configured = false
    · simp [connect, hc]
    · cases hs : (cfg.get_session create).2 with
      | error e => simp [connect, hc, hs]
      | ok s => cases hp : probe s 1 <;> simp [connect, hc, hs, hp]
  · intro hc
    simp [connect, hc]
  · intro e hc hs
    simp [connect, hc, hs]
  · intro s e hc hs hp
    simp [connect, hc, hs, hp]
  · intro s hc hs hp
    simp [connect, hc, hs, hp]

/-- Witness for C9: a configured default-chain config with a working
session but an access-denied probe yields `False` after exactly one
`MaxResults=1` probe call. -/
theorem connect_probe_and_failure_policy_witness :
    connect (AWSConfig.init Unit) (fun _ => .ok ())
      (fun _ _ => .error (.clientError "AccessDeniedException")) = (false, [1]) :=
  (connect_probe_and_failure_policy Unit (AWSConfig.init Unit) (fun _ => .ok ())
      (fun _ _ => .error (.clientError "AccessDeniedException"))).2.2.2.1
    () (.clientError "AccessDeniedException") rfl rfl rfl

/-- Twenty-three parameter metadata items, fitting one describe page of
size 50. -/
def metas23 : List DescMeta :=
  (List.range 23).map fun i =>
    { Name := "/app/p" ++ toString i
      «Type» := "String"
      Tier := some "Standard"
      KeyId := none
      LastModifiedDate := none
      Description := none }

/-- A store with 23 parameters whose batch value fetches all succeed. -/
def client23 : ListClient :=
  { pages := [metas23]
    get_parameters := fun names _ =>
      .ok (names.map fun n => { Name := n, Value := "val-" ++ n, Version := "1" }) }

/-- The same store but the second value-fetch batch (the one holding
`/app/p10`) raises a `ClientError`. -/
def client23_fail : ListClient :=
  { client23 with
    get_parameters := fun names d =>
      if names.contains "/app/p10" then .error { code := "ThrottlingException" }
      else client23.get_parameters names d }

/-- C8: over a store with 23 parameters on one describe page, `listAll`
issues its describe calls with `MaxResults=50`, fetches values in exactly
3 batches of sizes 10+10+3, and yields exactly 23 records with values
populated; when a value-fetch batch fails, that batch's records are still
returned, flagged with the sentinel `"Error retrieving value"`; and the
records replace the prior in-memory cache keyed by name — the result and
the new cache are independent of the prior cache, the new cache being
rebuilt from the returned records alone. -/
theorem get_all_parameters_paging_batching_and_cache :
    ((get_all_parameters client23 true []).1.length = 23) ∧
    ((get_all_parameters client23 true []).2.2.1 = [50]) ∧
    ((get_all_parameters client23 true []).2.2.2.map List.length = [10, 10, 3]) ∧
    ((get_all_parameters client23 true []).1.all
      (fun p => p.Value == "val-" ++ p.Name) = true) ∧
    ((get_all_parameters client23_fail true []).1.map (fun p => p.Value) =
      (List.range 23).map (fun i =>
        if 10 ≤ i && i < 20 then "Error retrieving value"
        else "val-/app/p" ++ toString i)) ∧
    (∀ (old old' : List (String × OutParam)) (client : ListClient) (d : Bool),
      get_all_parameters client d old = get_all_parameters client d old' ∧
      (get_all_parameters client d old).2.1 =
        (get_all_parameters client d old).1.map (fun p => (p.Name, p))) := by
  refine ⟨by decide, by decide, by decide, by decide, by decide, ?_⟩
  intro old old' client d
  exact ⟨rfl, rfl⟩

/-- A remote store where only `B` exists (with value `"oldB"`) and every
write succeeds. -/
def demoStore : Store := { params := [("B", "oldB")], putFails := fun _ => false }

/-- Desired record `A` of the `[A, B, C]` scenarios. -/
def recA : UParam := { key := "A", value := "newA" }

/-- Desired record `B` of the `[A, B, C]` scenarios. -/
def recB : UParam := { key := "B", value := "newB" }

/-- Desired record `C` of the `[A, B, C]` scenarios. -/
def recC : UParam := { key := "C", value := "newC" }

/-- A decision callback answering Skip for `B` and Replace otherwise. -/
def skipB_cb : UParam → String → Decision :=
  fun p _ => if p.key = "B" then .skip else .replace

/-- A decision callback answering Abort for `B` and Replace otherwise. -/
def abortB_cb : UParam → String → Decision :=
  fun p _ => if p.key = "B" then .abort else .replace

/-- C1: uploading `[A, B, C]` where only `B` exists remotely, with
`overwriteAll` off and the callback answering Skip for `B`: the result is
`uploaded=2, skipped=1, aborted=false`, `B`'s remote value is unchanged,
and the interaction trace writes exactly `A` and `C`, each with
`overwrite=true`, with no write for `B`. -/
theorem upload_skip_scenario :
    (upload_command demoStore [recA, recB, recC] false skipB_cb).1 =
      { uploaded := 2, skipped := 1, aborted := false } ∧
    (upload_command demoStore [recA, recB, recC] false skipB_cb).2.1.params.lookup "B" =
      some "oldB" ∧
    (upload_command demoStore [recA, recB, recC] false skipB_cb).2.2 =
      [.check_exists "A", .put "A" true, .check_exists "B", .ask_user "B",
       .check_exists "C", .put "C" true] := by
  exact ⟨by decide, by decide, by decide⟩

lemma uploadLoopAux_overwriteAll_trace (d : UParam → String → Decision)
    (ps : List UParam) : ∀ (store : Store) (u s : Nat),
    (uploadLoopAux true d store ps u s).2.2 =
      ps.flatMap (fun p => [StoreEvent.check_exists p.key, StoreEvent.put p.key true]) := by
  induction ps with
  | nil => intro store u s; simp [uploadLoopAux]
  | cons p rest ih =>
    intro store u s
    cases h : store.params.lookup p.key <;>
      simp [uploadLoopAux, h, ih]

lemma uploadLoopAux_overwriteAll_cb_irrelevant (d d' : UParam → String → Decision)
    (ps : List UParam) : ∀ (store : Store) (u s : Nat),
    uploadLoopAux true d store ps u s = uploadLoopAux true d' store ps u s := by
  induction ps with
  | nil => intro store u s; rfl
  | cons p rest ih =>
    intro store u s
    cases h : store.params.lookup p.key <;>
      simp [uploadLoopAux, h, ih]

/-- C3: for every desired-record sequence and every remote state, the loop
run with `overwriteAll=true` writes every record with `overwrite=true`
(its trace is exactly an existence check followed by an `overwrite=true`
write per record, in particular containing no user prompt), and its entire
outcome is independent of the decision callback — the callback is never
invoked. -/
theorem upload_overwrite_all_never_asks (store : Store) (ps : List UParam)
    (d d' : UParam → String → Decision) :
    (upload_command store ps true d).2.2 =
      ps.flatMap (fun p => [StoreEvent.check_exists p.key, StoreEvent.put p.key true]) ∧
    upload_command store ps true d = upload_command store ps true d' := by
  exact ⟨uploadLoopAux_overwriteAll_trace d ps store 0 0,
         uploadLoopAux_overwriteAll_cb_irrelevant d d' ps store 0 0⟩

lemma uploadLoopAux_append_no_abort (ow : Bool) (d : UParam → String → Decision)
    (ys : List UParam) :
    ∀ (xs : List UParam) (store : Store) (u s : Nat),
    (uploadLoopAux ow d store xs u s).1.aborted = false →
    uploadLoopAux ow d store (xs ++ ys) u s =
      (let r1 := uploadLoopAux ow d store xs u s
       let r2 := uploadLoopAux ow d r1.2.1 ys r1.1.uploaded r1.1.skipped
       (r2.1, r2.2.1, r1.2.2 ++ r2.2.2)) := by
  intro xs
  induction xs with
  | nil =>
    intro store u s _
    simp [uploadLoopAux]
  | cons p rest ih =>
    intro store u s h2
    cases h : store.params.lookup p.key with
    | none =>
      simp only [List.cons_append, List.append_eq, uploadLoopAux, h] at h2 ⊢
      rw [ih _ _ _ h2]
    | some v =>
      cases ow with
      | true =>
        simp only [List.cons_append, List.append_eq, uploadLoopAux, h, if_true] at h2 ⊢
        rw [ih _ _ _ h2]
      | false =>
        cases hd : d p v with
        | abort =>
          simp only [uploadLoopAux, h, hd] at h2
          simp at h2
        | skip =>
          simp only [List.cons_append, List.append_eq, uploadLoopAux, h, hd,
            Bool.false_eq_true, if_false] at h2 ⊢
          rw [ih _ _ _ h2]
        | replace =>
          simp only [List.cons_append, List.append_eq, uploadLoopAux, h, hd,
            Bool.false_eq_true, if_false] at h2 ⊢
          rw [ih _ _ _ h2]

/-- C2: when the decision callback answers Abort for a record `b` that
exists remotely (after a prefix run that did not itself abort), the loop
stops immediately: the outcome of the whole input is the prefix's counters
with `aborted=true`, the store is exactly the prefix's store (`b` and the
remaining records are not written), and the trace is the prefix's trace
followed only by `b`'s existence check and prompt — the remaining records
are neither written, existence-checked, nor counted as skipped. -/
theorem upload_abort_stops_immediately (store : Store) (pre post : List UParam)
    (b : UParam) (d : UParam → String → Decision) (res1 : UploadResult)
    (st1 : Store) (tr1 : List StoreEvent) (v : String)
    (h1 : upload_command store pre false d = (res1, st1, tr1))
    (h2 : res1.aborted = false)
    (hv : st1.params.lookup b.key = some v)
    (hd : d b v = .abort) :
    upload_command store (pre ++ b :: post) false d =
      ({ uploaded := res1.uploaded, skipped := res1.skipped, aborted := true }, st1,
       tr1 ++ [.check_exists b.key, .ask_user b.key]) := by
  rw [upload_command] at h1 ⊢
  have hab : (uploadLoopAux false d store pre 0 0).1.aborted = false := by
    rw [h1]; exact h2
  rw [uploadLoopAux_append_no_abort false d (b :: post) pre store 0 0 hab, h1]
  simp [uploadLoopAux, hv, hd]

/-- Witness for C2 on the spec's `[A, B, C]` scenario: `A` is written, the
callback aborts at `B`, and the run ends with `uploaded=1, skipped=0,
aborted=true`, the store still holding `B`'s old value, and no interaction
for `C`. -/
theorem upload_abort_stops_immediately_witness :
    upload_command demoStore [recA, recB, recC] false abortB_cb =
      ({ uploaded := 1, skipped := 0, aborted := true },
       { params := [("B", "oldB"), ("A", "newA")], putFails := fun _ => false },
       [.check_exists "A", .put "A" true, .check_exists "B", .ask_user "B"]) :=
  upload_abort_stops_immediately demoStore [recA] [recC] recB abortB_cb
    { uploaded := 1, skipped := 0, aborted := false }
    { params := [("B", "oldB"), ("A", "newA")], putFails := fun _ => false }
    [.check_exists "A", .put "A" true] "oldB" rfl rfl rfl rfl

end ParamStoreMgr
